import Mathlib

/-!
Verification of the record-generation and export pipeline of
`linkedin_scraper.py` (class `LinkedInScraper`).

The Python code is embedded shallowly:

* the random draws (`random.uniform`, `random.randint`), the wall clock
  (`datetime.now().isoformat()`) and the possibility of an exception inside
  the `try:` block of `simulate_profile_data` are modelled as an explicit
  oracle `SynthOutcome`, one per synthesis call;
* the mutable object state (`self.profiles`, `self.output_csv`) is a
  `Scraper` structure threaded explicitly; methods that mutate `self`
  return the new state;
* file writes are modelled as a list of `ExportAttempt` events returned by
  the export methods; an I/O failure during a write is an oracle boolean;
* Python `float` division in `get_stats` is modelled with exact rationals;
* a `KeyError` / uncaught exception in `__main__` is modelled with
  `Except String`.
-/

set_option autoImplicit false

namespace LinkedInScraper

/-! ### Username extraction

`simulate_profile_data` computes
`username = profile_url.split('/in/')[-1].rstrip('/')` (line 129).
`str.split` with a non-empty separator cuts at every occurrence of the
separator found by a left-to-right non-overlapping scan; `[-1]` takes the
final piece; `rstrip('/')` removes every trailing `'/'`.
-/

/-- Prepend a character to the first piece of a split result, as the
left-to-right scan does when the current position does not start the
separator. -/
def consPiece (c : Char) : List (List Char) → List (List Char)
  | [] => [[c]]
  | piece :: rest => (c :: piece) :: rest

/-- Does the character list start with the four-character marker `/in/`? -/
def startsWithMarker : List Char → Bool
  | c1 :: c2 :: c3 :: c4 :: _ =>
      c1 == '/' && c2 == 'i' && c3 == 'n' && c4 == '/'
  | _ => false

/-- Python `s.split('/in/')` on the character list of `s`: left-to-right
non-overlapping scan, cutting at each occurrence of the marker. -/
def splitMark : List Char → List (List Char)
  | [] => [[]]
  | '/' :: 'i' :: 'n' :: '/' :: rest => [] :: splitMark rest
  | c :: cs => consPiece c (splitMark cs)

/-- Does the string contain the marker `/in/` anywhere (as a substring)? -/
def hasMarker : List Char → Bool
  | [] => false
  | c :: cs => startsWithMarker (c :: cs) || hasMarker cs

/-- Python `rstrip('/')`: remove every trailing `'/'` character. -/
def rstripSlash (l : List Char) : List Char :=
  (l.reverse.dropWhile (fun c => c == '/')).reverse

/-- Line 129: `username = profile_url.split('/in/')[-1].rstrip('/')`. -/
def extractUsername (profile_url : String) : String :=
  ⟨rstripSlash ((splitMark profile_url.data).getLastD [])⟩

/-- `rstrip('/')` applied to the whole identifier, as a `String` function;
used to phrase what the fallback (marker absent) case actually returns. -/
def rstripSlashStr (s : String) : String :=
  ⟨rstripSlash s.data⟩

example : extractUsername "linkedin.com/in/sample-profile-1" = "sample-profile-1" := by decide
example : extractUsername "plain-id" = "plain-id" := by decide
example : extractUsername "plain-id/" = "plain-id" := by decide
example : extractUsername "a/in/b/in/c" = "c" := by decide
example : extractUsername "" = "" := by decide

/-- When the marker `/in/` does not occur in the string, the split returns
the whole string as its single piece. -/
theorem splitMark_of_not_hasMarker (s : List Char) (h : hasMarker s = false) :
    splitMark s = [s] := by
  induction s using splitMark.induct with
  | case1 => rfl
  | case2 rest ih => simp [hasMarker, startsWithMarker] at h
  | case3 c cs hne ih =>
    simp only [hasMarker, Bool.or_eq_false_iff] at h
    rw [splitMark.eq_3 c cs hne, ih h.2]
    rfl

/-! ### Record synthesis (`simulate_profile_data`, lines 107-153)

The record fields are built exactly as on lines 132-145.  The values of
`random.randint(100, 5000)`, `random.randint(0, 500)` and
`datetime.now().isoformat()` and whether an exception interrupts the `try:`
block are supplied by a per-call oracle `SynthOutcome`. -/

/-- Python `str.title()` restricted to ASCII behaviour: a letter that
follows a non-letter (or starts the string) is uppercased, any other letter
is lowercased.  Used for `username.title()` on line 135.  The Boolean
argument records whether the previous character was a letter. -/
def pyTitleAux : Bool → List Char → List Char
  | _, [] => []
  | prevAlpha, c :: cs =>
    (if c.isAlpha then (if prevAlpha then c.toLower else c.toUpper) else c)
      :: pyTitleAux c.isAlpha cs

/-- Python `str.title()` (ASCII behaviour). -/
def pyTitle (s : String) : String := ⟨pyTitleAux false s.data⟩

/-- One synthesized profile record: the dictionary built on lines 132-145. -/
structure Profile where
  profile_url : String
  username : String
  name : String
  title : String
  company : String
  location : String
  about : String
  skills : String
  connections : Nat
  endorsements : Nat
  scraped_at : String
  data_type : String
  deriving Repr, DecidableEq

/-- The profile dictionary literal of lines 132-145, as a function of the
input identifier and of the values drawn from the random source and clock. -/
def mkProfileData (profile_url : String) (connections endorsements : Nat)
    (scraped_at : String) : Profile :=
  let username := extractUsername profile_url
  { profile_url := profile_url
    username := username
    name := "Professional " ++ pyTitle username
    title := "Job Title Example"
    company := "Company Example"
    location := "City, Country"
    about := "Professional summary example"
    skills := "Python, Web Scraping, Data Analysis"
    connections := connections
    endorsements := endorsements
    scraped_at := scraped_at
    data_type := "SIMULATED - FOR DEMONSTRATION ONLY" }

/-- Oracle for one call of `simulate_profile_data`: whether an exception is
raised inside the `try:` block (before the record is appended), and the
values produced by `random.randint(100, 5000)`, `random.randint(0, 500)`
and `datetime.now().isoformat()`. -/
structure SynthOutcome where
  fails : Bool
  connections : Nat
  endorsements : Nat
  scraped_at : String
  deriving Repr, DecidableEq

/-- The mutable state of a `LinkedInScraper` object relevant to the
pipeline: `self.output_csv` and `self.profiles` (lines 60-63). -/
structure Scraper where
  output_csv : String
  profiles : List Profile
  deriving Repr, DecidableEq

/-- `simulate_profile_data` (lines 107-153): on an exception the `except`
branch returns `None` and the state is untouched; otherwise the record is
built, appended to `self.profiles` (line 147) and returned. -/
def simulate_profile_data (env : SynthOutcome) (s : Scraper)
    (profile_url : String) : Option Profile × Scraper :=
  if env.fails then
    (none, s)
  else
    let p := mkProfileData profile_url env.connections env.endorsements env.scraped_at
    (some p, { s with profiles := s.profiles ++ [p] })

/-- The `for url in profile_urls:` loop of `scrape_profiles`
(lines 167-168), each call paired with its oracle. -/
def scrapeLoop (s : Scraper) : List (String × SynthOutcome) → Scraper
  | [] => s
  | (url, env) :: rest => scrapeLoop (simulate_profile_data env s url).2 rest

/-- `scrape_profiles` (lines 155-171): runs the loop and returns
`self.profiles` — the whole accumulated collection, not just this batch. -/
def scrape_profiles (s : Scraper) (pairs : List (String × SynthOutcome)) :
    List Profile × Scraper :=
  let s' := scrapeLoop s pairs
  (s'.profiles, s')

/-- The records appended by one batch: one record per non-failing call, in
input order, skipping the failing calls. -/
def successRecords : List (String × SynthOutcome) → List Profile
  | [] => []
  | (url, env) :: rest =>
    if env.fails then successRecords rest
    else mkProfileData url env.connections env.endorsements env.scraped_at
      :: successRecords rest

/-! ### Export (`save_to_csv` lines 173-197, `save_to_json` lines 199-222)

A file write is recorded as an `ExportAttempt` event; whether the write
raises an I/O error is an oracle boolean.  The empty-collection guard
(lines 180-182 and 209-211) returns `None` before any file is opened, so
an empty collection produces no event at all. -/

/-- One attempted file write: target path, the rows serialized, and whether
the write succeeded. -/
structure ExportAttempt where
  path : String
  rows : List Profile
  ok : Bool
  deriving Repr, DecidableEq

/-- `save_to_csv` (lines 173-197): returns the path on success, `None` when
there is nothing to save or when the write raises, together with the file
events it caused. -/
def save_to_csv (ioError : Bool) (s : Scraper) :
    Option String × List ExportAttempt :=
  if s.profiles = [] then
    (none, [])
  else if ioError then
    (none, [⟨s.output_csv, s.profiles, false⟩])
  else
    (some s.output_csv, [⟨s.output_csv, s.profiles, true⟩])

/-- `save_to_json` (lines 199-222): same shape as the CSV export, with the
filename argument (default `'profiles.json'`). -/
def save_to_json (ioError : Bool) (filename : String) (s : Scraper) :
    Option String × List ExportAttempt :=
  if s.profiles = [] then
    (none, [])
  else if ioError then
    (none, [⟨filename, s.profiles, false⟩])
  else
    (some filename, [⟨filename, s.profiles, true⟩])

/-- The unconditional export sequence of `__main__` (lines 268-269): the
CSV export is called, then the JSON export is called, whatever the CSV
result was. -/
def runExports (ioErrCsv ioErrJson : Bool) (s : Scraper) :
    (Option String × List ExportAttempt) × (Option String × List ExportAttempt) :=
  (save_to_csv ioErrCsv s, save_to_json ioErrJson "profiles.json" s)

/-! ### Statistics (`get_stats`, lines 224-233)

The returned Python dictionary has only the key `'total_profiles'` when the
collection is empty; the two other keys exist only in the non-empty case,
modelled with `Option` fields.  The float division of line 231 is modelled
with exact rationals. -/

/-- The dictionary returned by `get_stats`.  `average_connections` and
`total_skills_fields` are `none` exactly when the key is absent. -/
structure Stats where
  total_profiles : Nat
  average_connections : Option ℚ
  total_skills_fields : Option Nat
  deriving Repr, DecidableEq

/-- `get_stats` (lines 224-233), as a state transformer on the object: the
body only reads `self.profiles`, so the state comes back unchanged. -/
def get_stats (s : Scraper) : Stats × Scraper :=
  if s.profiles = [] then
    ({ total_profiles := 0
       average_connections := none
       total_skills_fields := none }, s)
  else
    ({ total_profiles := s.profiles.length
       average_connections :=
         some (((s.profiles.map (fun p => (p.connections : ℚ))).sum) /
           (s.profiles.length : ℚ))
       total_skills_fields :=
         some ((s.profiles.filter (fun p => p.skills != "")).length) }, s)

/-! ### `__main__` (lines 236-280) -/

/-- The hard-coded input list of lines 238-259. -/
def sample_profiles : List String :=
  [ "linkedin.com/in/sample-profile-1",
    "linkedin.com/in/sample-profile-2",
    "linkedin.com/in/sample-profile-3",
    "linkedin.com/in/sample-profile-4",
    "linkedin.com/in/sample-profile-5",
    "linkedin.com/in/sample-profile-6",
    "linkedin.com/in/sample-profile-7",
    "linkedin.com/in/sample-profile-8",
    "linkedin.com/in/sample-profile-9",
    "linkedin.com/in/sample-profile-10",
    "linkedin.com/in/sample-profile-11",
    "linkedin.com/in/sample-profile-12",
    "linkedin.com/in/sample-profile-13",
    "linkedin.com/in/sample-profile-14",
    "linkedin.com/in/sample-profile-15",
    "linkedin.com/in/sample-profile-16",
    "linkedin.com/in/sample-profile-17",
    "linkedin.com/in/sample-profile-18",
    "linkedin.com/in/sample-profile-19",
    "linkedin.com/in/sample-profile-20" ]

/-- What a successful run of `__main__` prints: the values interpolated
into the summary of lines 273-278. -/
structure Summary where
  total_profiles : Nat
  average_connections : ℚ
  csv_file : Option String
  json_file : Option String
  deriving Repr, DecidableEq

/-- `__main__` (lines 262-280): build the scraper with an empty collection,
scrape the sample list, export CSV then JSON, compute the statistics, then
print the summary.  Line 275 reads `stats['average_connections']`, a key
that `get_stats` only puts in the dictionary when the collection is
non-empty; an absent key raises `KeyError`, which nothing catches, so the
run ends in error instead of printing the summary. -/
def mainRun (envs : List SynthOutcome) (ioErrCsv ioErrJson : Bool) :
    Except String Summary :=
  let scraper : Scraper := { output_csv := "profiles.csv", profiles := [] }
  let r := scrape_profiles scraper (sample_profiles.zip envs)
  let csv_file := (save_to_csv ioErrCsv r.2).1
  let json_file := (save_to_json ioErrJson "profiles.json" r.2).1
  let stats := (get_stats r.2).1
  match stats.average_connections with
  | none => Except.error "KeyError: average_connections"
  | some avg =>
    Except.ok { total_profiles := stats.total_profiles
                average_connections := avg
                csv_file := csv_file
                json_file := json_file }

/-! ### Concrete inputs used by witnesses -/

/-- A scraper that has not yet collected anything. -/
def emptyScraper : Scraper := { output_csv := "profiles.csv", profiles := [] }

/-- A scraper holding two records with `connections` 100 and 300, as in the
spec's fixed statistics example. -/
def twoRecordScraper : Scraper :=
  { output_csv := "profiles.csv",
    profiles := [mkProfileData "linkedin.com/in/a" 100 0 "2024-01-01T00:00:00",
                 mkProfileData "linkedin.com/in/b" 300 7 "2024-01-01T00:00:01"] }

/-- An oracle for a synthesis call that succeeds. -/
def okOutcome : SynthOutcome :=
  { fails := false, connections := 250, endorsements := 3,
    scraped_at := "2024-01-01T00:00:02" }

/-- An oracle for a synthesis call that raises inside the `try:` block. -/
def failOutcome : SynthOutcome :=
  { fails := true, connections := 0, endorsements := 0, scraped_at := "" }

/-! ### Helper lemmas -/

theorem mkProfileData_profile_url (u : String) (c e : Nat) (t : String) :
    (mkProfileData u c e t).profile_url = u := rfl

/-- The batch loop only appends: after the loop the collection is the old
collection followed by the records of the non-failing calls, in order. -/
theorem scrapeLoop_profiles (pairs : List (String × SynthOutcome)) :
    ∀ s : Scraper, (scrapeLoop s pairs).profiles = s.profiles ++ successRecords pairs := by
  induction pairs with
  | nil => intro s; simp [scrapeLoop, successRecords]
  | cons hd tl ih =>
    intro s
    obtain ⟨url, env⟩ := hd
    by_cases h : env.fails
    · simp [scrapeLoop, simulate_profile_data, successRecords, h, ih]
    · simp [scrapeLoop, simulate_profile_data, successRecords, h, ih]

/-- The loop does not touch `self.output_csv`. -/
theorem scrapeLoop_output_csv (pairs : List (String × SynthOutcome)) :
    ∀ s : Scraper, (scrapeLoop s pairs).output_csv = s.output_csv := by
  induction pairs with
  | nil => intro s; rfl
  | cons hd tl ih =>
    intro s
    obtain ⟨url, env⟩ := hd
    by_cases h : env.fails
    · simp [scrapeLoop, simulate_profile_data, h, ih]
    · simp [scrapeLoop, simulate_profile_data, h, ih]

/-- With no failing call, the batch produces one record per input, whose
`profile_url` is that input. -/
theorem successRecords_map_url (pairs : List (String × SynthOutcome))
    (h : ∀ p ∈ pairs, p.2.fails = false) :
    (successRecords pairs).map (fun r => r.profile_url) = pairs.map (fun p => p.1) := by
  induction pairs with
  | nil => rfl
  | cons hd tl ih =>
    obtain ⟨url, env⟩ := hd
    have henv : env.fails = false := h (url, env) (List.mem_cons_self _ _)
    have htl : ∀ p ∈ tl, p.2.fails = false := fun p hp => h p (List.mem_cons_of_mem _ hp)
    simp [successRecords, henv, ih htl, mkProfileData_profile_url]

/-! ### Claim theorems -/

/-- C1: for every non-empty input sequence with no synthesis failure,
`scrape_profiles` starting from an empty collection returns exactly one
record per input, in input order, the i-th record's `profile_url` being the
i-th input (stated as equality of the `profile_url` projection with the
input list, which fixes both the length and every position). -/
theorem scrape_profiles_no_failure_shape
    (pairs : List (String × SynthOutcome)) (s : Scraper)
    (_hne : pairs ≠ [])
    (hok : ∀ p ∈ pairs, p.2.fails = false)
    (hempty : s.profiles = []) :
    (scrape_profiles s pairs).1.map (fun r => r.profile_url)
        = pairs.map (fun p => p.1)
      ∧ (scrape_profiles s pairs).1.length = pairs.length := by
  have hprof : (scrape_profiles s pairs).1 = successRecords pairs := by
    simp [scrape_profiles, scrapeLoop_profiles, hempty]
  constructor
  · rw [hprof, successRecords_map_url pairs hok]
  · have hmap := successRecords_map_url pairs hok
    have := congrArg List.length hmap
    simpa [hprof] using this

/-- C1 witness: a concrete two-element batch from an empty scraper. -/
theorem scrape_profiles_no_failure_shape_witness :
    (scrape_profiles emptyScraper
        [("linkedin.com/in/sample-profile-1", okOutcome),
         ("linkedin.com/in/sample-profile-2", okOutcome)]).1.map
          (fun r => r.profile_url)
        = ["linkedin.com/in/sample-profile-1", "linkedin.com/in/sample-profile-2"]
      ∧ (scrape_profiles emptyScraper
          [("linkedin.com/in/sample-profile-1", okOutcome),
           ("linkedin.com/in/sample-profile-2", okOutcome)]).1.length = 2 :=
  scrape_profiles_no_failure_shape
    [("linkedin.com/in/sample-profile-1", okOutcome),
     ("linkedin.com/in/sample-profile-2", okOutcome)]
    emptyScraper (by decide) (by decide) (by decide)

/-- C2 counterexample: `"plain-id/"` contains no `/in/` marker, yet the
extracted username is `"plain-id"`, not the whole input — line 129 applies
`rstrip('/')` in the fallback case too, so the claim that the derived key
then equals the whole input identifier is false. -/
theorem extractUsername_no_marker_counterexample :
    hasMarker ("plain-id/".data) = false
      ∧ extractUsername "plain-id/" ≠ "plain-id/" := by
  constructor
  · decide
  · decide

/-- C2 amended: the derived key is the final piece of the left-to-right
non-overlapping split of the identifier on `/in/` with trailing `'/'`
trimmed; `"linkedin.com/in/sample-profile-1"` yields
`"sample-profile-1"`, and an identifier with no `/in/` marker yields the
whole input with trailing `'/'` characters trimmed. -/
theorem extractUsername_amended :
    (∀ s : String, hasMarker s.data = false →
        extractUsername s = rstripSlashStr s)
      ∧ extractUsername "linkedin.com/in/sample-profile-1" = "sample-profile-1" := by
  constructor
  · intro s h
    unfold extractUsername rstripSlashStr
    rw [splitMark_of_not_hasMarker s.data h]
    rfl
  · decide

/-- C2 witness: the marker-free identifier `"plain-id"` is returned
whole (it has no trailing separator to trim). -/
theorem extractUsername_amended_witness :
    hasMarker ("plain-id".data) = false
      ∧ extractUsername "plain-id" = rstripSlashStr "plain-id" :=
  ⟨by decide, extractUsername_amended.1 "plain-id" (by decide)⟩

/-- C3: the claim says `__main__` always prints the summary and exits
successfully, even when every synthesis fails.  In the code, when every
synthesis fails the collection is empty, `get_stats` returns a dictionary
holding only `'total_profiles'`, and line 275 reads
`stats['average_connections']` — an uncaught `KeyError`.  This theorem
evaluates the modelled run at that failing input: it ends in error, not in
a printed summary. -/
theorem mainRun_all_failures_keyerror :
    mainRun (List.replicate 20 failOutcome) false false
      = Except.error "KeyError: average_connections" := rfl

/-- C4: on a non-empty collection, `get_stats` returns the record count,
the arithmetic mean of the `connections` values (a single float division;
modelled exactly in `ℚ`), and the number of records with non-empty
`skills`. -/
theorem get_stats_nonempty (s : Scraper) (h : s.profiles ≠ []) :
    (get_stats s).1.total_profiles = s.profiles.length
      ∧ (get_stats s).1.average_connections
          = some ((((s.profiles.map (fun p => p.connections)).sum : ℕ) : ℚ)
              / (s.profiles.length : ℚ))
      ∧ (get_stats s).1.total_skills_fields
          = some ((s.profiles.filter (fun p => p.skills != "")).length) := by
  refine ⟨?_, ?_, ?_⟩ <;>
    simp [get_stats, h, Nat.cast_list_sum, List.map_map, Function.comp_def]

/-- C4 witness: two records with `connections` 100 and 300 give average
exactly 200 and both have non-empty `skills`. -/
theorem get_stats_nonempty_witness :
    twoRecordScraper.profiles ≠ []
      ∧ (get_stats twoRecordScraper).1.total_profiles = 2
      ∧ (get_stats twoRecordScraper).1.average_connections = some 200
      ∧ (get_stats twoRecordScraper).1.total_skills_fields = some 2 := by
  have h := get_stats_nonempty twoRecordScraper (by decide)
  refine ⟨by decide, ?_, ?_, ?_⟩
  · rw [h.1]; rfl
  · rw [h.2.1]; simp [twoRecordScraper, mkProfileData]; norm_num
  · rw [h.2.2]; decide

/-- C5: on an empty collection `get_stats` returns a dictionary whose only
key is `'total_profiles'`, with value 0, and raises nothing (the modelled
function is total and never divides: the division branch is not taken). -/
theorem get_stats_empty (out : String) :
    get_stats { output_csv := out, profiles := [] }
      = ({ total_profiles := 0, average_connections := none,
           total_skills_fields := none },
         { output_csv := out, profiles := [] }) := rfl

/-- C6: exporting an empty collection returns `None` ("nothing to export")
and causes no file write at all, for both the CSV and the JSON export,
whatever the I/O oracle says. -/
theorem exports_empty_collection (ioErrCsv ioErrJson : Bool) (fn : String)
    (s : Scraper) (h : s.profiles = []) :
    save_to_csv ioErrCsv s = (none, [])
      ∧ save_to_json ioErrJson fn s = (none, []) := by
  constructor <;> simp [save_to_csv, save_to_json, h]

/-- C6 witness: both exports on the concrete empty scraper. -/
theorem exports_empty_collection_witness :
    save_to_csv true emptyScraper = (none, [])
      ∧ save_to_json false "profiles.json" emptyScraper = (none, []) :=
  exports_empty_collection true false "profiles.json" emptyScraper rfl

/-- C7: an I/O error during a write is caught: the export returns `None`
instead of propagating (the modelled functions are total, mirroring the
`except` branches of lines 195-197 and 220-222); and in the `__main__`
sequence the JSON export is unaffected by a CSV failure — its result is
the same whether the CSV write erred or not, and on a non-empty collection
the JSON write is still attempted after a CSV error. -/
theorem export_errors_caught (s : Scraper) (fn : String) (ioErrJson : Bool) :
    (save_to_csv true s).1 = none
      ∧ (save_to_json true fn s).1 = none
      ∧ (runExports true ioErrJson s).2 = (runExports false ioErrJson s).2
      ∧ (s.profiles ≠ [] → (runExports true ioErrJson s).2.2 ≠ []) := by
  refine ⟨?_, ?_, rfl, ?_⟩
  · by_cases h : s.profiles = [] <;> simp [save_to_csv, h]
  · by_cases h : s.profiles = [] <;> simp [save_to_json, h]
  · intro h
    by_cases hj : ioErrJson <;> simp [runExports, save_to_json, h, hj]

/-- C7 witness: on the concrete two-record scraper, a failing CSV write
returns `None` and the JSON write is still attempted. -/
theorem export_errors_caught_witness :
    (save_to_csv true twoRecordScraper).1 = none
      ∧ (runExports true false twoRecordScraper).2.2 ≠ [] :=
  ⟨(export_errors_caught twoRecordScraper "profiles.json" false).1,
   (export_errors_caught twoRecordScraper "profiles.json" false).2.2.2 (by decide)⟩

/-- C8: `get_stats` does not mutate the object (the state it returns is
the state it was given) and it is idempotent: a second call on the
unmodified object returns the same statistics. -/
theorem get_stats_pure_idempotent (s : Scraper) :
    (get_stats s).2 = s
      ∧ (get_stats ((get_stats s).2)).1 = (get_stats s).1 := by
  by_cases h : s.profiles = [] <;> simp [get_stats, h]

/-- C9: the collection is append-only and never reset: a first batch
leaves the prior records in place and appends its successes; a second call
of `scrape_profiles` returns the records of earlier calls followed by the
new batch's records; and the exports and the statistics all read exactly
this cumulative collection. -/
theorem profiles_append_only (s : Scraper)
    (p1 p2 : List (String × SynthOutcome)) (ioErr : Bool) (fn : String) :
    (scrape_profiles s p1).2.profiles = s.profiles ++ successRecords p1
      ∧ (scrape_profiles (scrape_profiles s p1).2 p2).1
          = s.profiles ++ successRecords p1 ++ successRecords p2
      ∧ (scrape_profiles (scrape_profiles s p1).2 p2).2.profiles
          = s.profiles ++ successRecords p1 ++ successRecords p2
      ∧ (∀ a ∈ (save_to_csv ioErr (scrape_profiles (scrape_profiles s p1).2 p2).2).2,
          a.rows = s.profiles ++ successRecords p1 ++ successRecords p2)
      ∧ (∀ a ∈ (save_to_json ioErr fn (scrape_profiles (scrape_profiles s p1).2 p2).2).2,
          a.rows = s.profiles ++ successRecords p1 ++ successRecords p2)
      ∧ (get_stats (scrape_profiles (scrape_profiles s p1).2 p2).2).1
          = (get_stats { output_csv := s.output_csv,
                         profiles := s.profiles ++ successRecords p1
                           ++ successRecords p2 }).1 := by
  have h1 : (scrape_profiles s p1).2.profiles = s.profiles ++ successRecords p1 := by
    simp [scrape_profiles, scrapeLoop_profiles]
  have h2 : (scrape_profiles (scrape_profiles s p1).2 p2).2.profiles
      = s.profiles ++ successRecords p1 ++ successRecords p2 := by
    simp [scrape_profiles, scrapeLoop_profiles, h1]
  have hcsv : (scrape_profiles (scrape_profiles s p1).2 p2).2.output_csv
      = s.output_csv := by
    simp [scrape_profiles, scrapeLoop_output_csv]
  refine ⟨h1, ?_, h2, ?_, ?_, ?_⟩
  · simp [scrape_profiles] at h2 ⊢
    exact h2
  · intro a ha
    by_cases h : (scrape_profiles (scrape_profiles s p1).2 p2).2.profiles = []
    · simp [save_to_csv, h] at ha
    · by_cases hio : ioErr <;>
        simp [save_to_csv, h, hio] at ha <;> simp [ha, h2]
  · intro a ha
    by_cases h : (scrape_profiles (scrape_profiles s p1).2 p2).2.profiles = []
    · simp [save_to_json, h] at ha
    · by_cases hio : ioErr <;>
        simp [save_to_json, h, hio] at ha <;> simp [ha, h2]
  · have he : Scraper.mk s.output_csv
        (s.profiles ++ successRecords p1 ++ successRecords p2)
        = (scrape_profiles (scrape_profiles s p1).2 p2).2 := by
      rw [← h2, ← hcsv]
    rw [he]

/-- C9 witness: one successful batch then a second one on the concrete
empty scraper, instantiating the per-event clauses on the CSV attempt. -/
theorem profiles_append_only_witness :
    (scrape_profiles (scrape_profiles emptyScraper
        [("linkedin.com/in/a", okOutcome)]).2
        [("linkedin.com/in/b", okOutcome)]).1
      = successRecords [("linkedin.com/in/a", okOutcome)]
        ++ successRecords [("linkedin.com/in/b", okOutcome)] :=
  (profiles_append_only emptyScraper
      [("linkedin.com/in/a", okOutcome)]
      [("linkedin.com/in/b", okOutcome)] false "profiles.json").2.1

/-- C10: `simulate_profile_data` is atomic with respect to the collection:
when it returns `None` the state is unchanged, and when it returns a
record it has appended exactly that record to the collection. -/
theorem simulate_profile_data_atomic (env : SynthOutcome) (s : Scraper)
    (url : String) :
    ((simulate_profile_data env s url).1 = none
        → (simulate_profile_data env s url).2 = s)
      ∧ (∀ p, (simulate_profile_data env s url).1 = some p
        → (simulate_profile_data env s url).2.profiles = s.profiles ++ [p]) := by
  by_cases h : env.fails
  · constructor
    · intro _; simp [simulate_profile_data, h]
    · intro p hp; simp [simulate_profile_data, h] at hp
  · constructor
    · intro hnone; simp [simulate_profile_data, h] at hnone
    · intro p hp
      simp [simulate_profile_data, h] at hp ⊢
      rw [hp]

/-- C10 witness: a concrete successful call appends the record it
returns. -/
theorem simulate_profile_data_atomic_witness :
    (simulate_profile_data okOutcome emptyScraper "linkedin.com/in/x").2.profiles
      = emptyScraper.profiles
        ++ [mkProfileData "linkedin.com/in/x" 250 3 "2024-01-01T00:00:02"] :=
  (simulate_profile_data_atomic okOutcome emptyScraper "linkedin.com/in/x").2
    (mkProfileData "linkedin.com/in/x" 250 3 "2024-01-01T00:00:02") rfl

end LinkedInScraper
